import Mathlib

/-!
Shallow embedding of the `fastform` ingestion pipeline, verified against its
natural-language specification.

Source files embedded:
- `src/fastform/src/fastform/ndc_to_rxcui.py` — the cached, retrying
  NDC → RxCUI identifier resolver;
- `src/fastform/src/fastform/ingest_cms.py` — the CSV/ZIP ingestion pipeline
  (`_open_formulary_rows`, `_norm_bool`, `ingest_to_rules`).

External effects (the HTTP lookup, the cache file on disk, the output file)
are made explicit: the remote service is an oracle giving the outcome of each
successive attempt, the cache file is a `PStore` value threaded through the
resolver, and the output CSV is the list of rows written to it.
-/

namespace Fastform

/-! ### Python string primitives

The source leans on `str.strip`, `str.upper`, `str.lower`, `str.replace`,
`in` (substring test) and `str.endswith`. They are embedded here as
computable functions on the character list of a `String`, so that every
definition evaluates on concrete inputs by kernel reduction. ASCII
behaviour (the only kind exercised by the column names and flag tokens of
this dataset) matches Python's. -/

/-- Python `s.strip()`: remove leading and trailing whitespace. -/
def pyStrip (s : String) : String :=
  String.mk (((s.toList.dropWhile Char.isWhitespace).reverse.dropWhile
    Char.isWhitespace).reverse)

/-- Python `s.upper()`. -/
def pyUpper (s : String) : String :=
  String.mk (s.toList.map Char.toUpper)

/-- Python `s.lower()`. -/
def pyLower (s : String) : String :=
  String.mk (s.toList.map Char.toLower)

/-- Python `s.replace("-", "")`: delete every dash character. -/
def stripDashes (s : String) : String :=
  String.mk (s.toList.filter (fun c => c ≠ '-'))

/-- Does the second list occur as a leading segment of the first? -/
def listLeads : List Char → List Char → Bool
  | _, [] => true
  | [], _ :: _ => false
  | a :: as, b :: bs => a == b && listLeads as bs

/-- Does `pat` occur as a contiguous run inside `s`? -/
def listHasRun (pat : List Char) : List Char → Bool
  | [] => listLeads [] pat
  | c :: rest => listLeads (c :: rest) pat || listHasRun pat rest

/-- Python `pat in s` (substring containment). -/
def strContainsSub (s pat : String) : Bool :=
  listHasRun pat.toList s.toList

/-- Python `s.endswith(pat)`. -/
def strEndsWith (s pat : String) : Bool :=
  listLeads s.toList.reverse pat.toList.reverse

/-! ### Identifier resolver (`ndc_to_rxcui.py`) -/

/-- The value found at `data.get("idGroup", {}).get("rxnormId")` in the JSON
body of a successful remote response: absent, a JSON string, or a JSON array
of strings. -/
inductive RxField where
  | absent : RxField
  | str (s : String) : RxField
  | arr (l : List String) : RxField
deriving DecidableEq, Repr

/-- `val = rxcui[0] if isinstance(rxcui, list) and rxcui else None`
(line 35 of `ndc_to_rxcui.py`): the first element of a non-empty list,
`None` for anything else (absent field, bare string, empty list). -/
def extractVal : RxField → Option String
  | RxField.arr (x :: _) => some x
  | _ => none

/-- Outcome of one attempt against the remote lookup service:
`fail` models any exception (network error, timeout, malformed JSON);
`ok f` models a successful fetch and parse whose `idGroup.rxnormId`
field is `f`. -/
inductive AttemptResult where
  | fail : AttemptResult
  | ok (field : RxField) : AttemptResult
deriving DecidableEq, Repr

/-- The in-memory cache `_cache`: a finite map from normalized NDC to the
stored value, where a stored `none` is the explicit "not found" marker
(Python stores `None`). -/
abbrev Cache := List (String × Option String)

/-- `key in _cache` / `_cache[key]`: lookup in the cache map. The outer
`Option` is presence of the key; the inner `Option String` is the stored
value. -/
def cacheGet (c : Cache) (k : String) : Option (Option String) :=
  (c.find? (fun p => p.1 = k)).map Prod.snd

/-- `_cache[key] = v`: dictionary update (overwrites any previous entry). -/
def cacheSet (c : Cache) (k : String) (v : Option String) : Cache :=
  (c.filter (fun p => p.1 ≠ k)) ++ [(k, v)]

/-- The cache file `data/.rxnorm_ndc_cache.json` on disk: missing, present
but unreadable/corrupt, or present with a readable cache value. -/
inductive PStore where
  | missing : PStore
  | corrupt : PStore
  | good (c : Cache) : PStore
deriving DecidableEq, Repr

/-- Module-load behaviour of `ndc_to_rxcui.py` lines 8–14: a readable file
yields its contents; a missing or corrupt file yields the empty cache
(never fatal). -/
def loadCache : PStore → Cache
  | PStore.good c => c
  | _ => []

/-- `_save()` (lines 16–20): write the whole cache to the file, swallowing
any exception. `saveFails = true` models the write raising: the store is
left unchanged and the failure is invisible to the caller. -/
def saveStore (saveFails : Bool) (c : Cache) (s : PStore) : PStore :=
  if saveFails then s else PStore.good c

/-- Result of one call to `ndc_to_rxcui`: the returned value, the in-memory
cache and on-disk store afterwards, the number of remote HTTP requests
made, and the number of `_save()` invocations. -/
structure ResolveOut where
  result : Option String
  cache : Cache
  store : PStore
  remoteCalls : Nat
  saves : Nat
deriving DecidableEq, Repr

/-- `_cache[key] or None` (line 28): Python `or` maps a falsy stored value
(`None` or the empty string) to `None`. -/
def pyOrNone : Option String → Option String
  | some s => if s = "" then none else some s
  | none => none

/-- The retry loop `for _ in range(3)` (lines 30–40), with the terminal
negative-caching of lines 41–43 when the fuel runs out. The oracle list
gives the outcome of each successive attempt (an exhausted oracle reads as
a failing attempt); every attempt consumes one remote call. On success the
extracted value is cached, `_save()` runs, and the value is returned; after
the last failure the key is cached as "not found", `_save()` runs, and
`None` is returned. -/
def attemptLoop (saveFails : Bool) (key : String) (cache : Cache) :
    PStore → List AttemptResult → Nat → ResolveOut
  | store, _, 0 =>
      let c := cacheSet cache key none
      { result := none, cache := c, store := saveStore saveFails c store,
        remoteCalls := 0, saves := 1 }
  | store, [], Nat.succ n =>
      let out := attemptLoop saveFails key cache store [] n
      { out with remoteCalls := out.remoteCalls + 1 }
  | store, AttemptResult.fail :: rest, Nat.succ n =>
      let out := attemptLoop saveFails key cache store rest n
      { out with remoteCalls := out.remoteCalls + 1 }
  | store, AttemptResult.ok f :: _, Nat.succ _ =>
      let val := extractVal f
      let c := cacheSet cache key val
      { result := val, cache := c, store := saveStore saveFails c store,
        remoteCalls := 1, saves := 1 }

/-- `ndc_to_rxcui(ndc)` (lines 22–43). `key = ndc.replace("-", "").strip()`;
empty key returns `None` immediately; a cached key (even one cached as
"not found") returns `_cache[key] or None` with no remote call and no
save; otherwise the bounded retry loop runs with fuel 3. -/
def ndc_to_rxcui (saveFails : Bool) (cache : Cache) (store : PStore)
    (oracle : List AttemptResult) (ndc : String) : ResolveOut :=
  let key := pyStrip (stripDashes ndc)
  if key = "" then
    { result := none, cache := cache, store := store, remoteCalls := 0, saves := 0 }
  else
    match cacheGet cache key with
    | some v =>
        { result := pyOrNone v, cache := cache, store := store,
          remoteCalls := 0, saves := 0 }
    | none => attemptLoop saveFails key cache store oracle 3

/-! ### Ingestion pipeline (`ingest_cms.py`) -/

/-- A Raw Row as yielded by `_open_formulary_rows`: a mapping from (already
whitespace-trimmed) column name to (already trimmed) string value. -/
abbrev Row := List (String × String)

/-- `r.get(k)`: `some` of the value when the column is present, `none` when
absent. -/
def rget (r : Row) (k : String) : Option String :=
  (r.find? (fun p => p.1 = k)).map Prod.snd

/-- Python `a or b` on optional strings: `a` when it is truthy (present and
non-empty), else `b`. -/
def pyOr (a b : Option String) : Option String :=
  match a with
  | some s => if s = "" then b else some s
  | none => b

/-- Python truthiness of an optional string: `None` and `""` are falsy. -/
def truthy : Option String → Bool
  | some s => s ≠ ""
  | none => false

/-- Python `x or ""` on an optional string: the string when truthy, else the
empty string. -/
def pyOrStr : Option String → String
  | some s => s
  | none => ""

/-- `_norm_bool(v)` (lines 36–37 of `ingest_cms.py`):
`str(v).strip().upper() in {"Y","YES","TRUE","T","1"}`. -/
def _norm_bool (v : String) : Bool :=
  ["Y", "YES", "TRUE", "T", "1"].contains (pyUpper (pyStrip v))

/-- `contract = r.get("CONTRACT_ID") or r.get("PARENT_ORGANIZATION_CONTRACT_ID")`. -/
def rowContract (r : Row) : Option String :=
  pyOr (rget r "CONTRACT_ID") (rget r "PARENT_ORGANIZATION_CONTRACT_ID")

/-- `plan = r.get("PLAN_ID") or r.get("PBP")`. -/
def rowPlan (r : Row) : Option String :=
  pyOr (rget r "PLAN_ID") (rget r "PBP")

/-- `ndc = (r.get("NDC") or r.get("NDC_11") or "").replace("-", "")`. -/
def rowNdc (r : Row) : String :=
  stripDashes (pyOrStr (pyOr (rget r "NDC") (rget r "NDC_11")))

/-- `tier = r.get("TIER") or r.get("FORMULARY_TIER")`. -/
def rowTier (r : Row) : Option String :=
  pyOr (rget r "TIER") (rget r "FORMULARY_TIER")

/-- `pa = _norm_bool(r.get("PRIOR_AUTHORIZATION_FLAG","N"))`. -/
def rowPa (r : Row) : Bool :=
  _norm_bool ((rget r "PRIOR_AUTHORIZATION_FLAG").getD "N")

/-- `st = _norm_bool(r.get("STEP_THERAPY_FLAG","N"))`. -/
def rowSt (r : Row) : Bool :=
  _norm_bool ((rget r "STEP_THERAPY_FLAG").getD "N")

/-- `ql = _norm_bool(r.get("QUANTITY_LIMIT_FLAG","N"))`. -/
def rowQl (r : Row) : Bool :=
  _norm_bool ((rget r "QUANTITY_LIMIT_FLAG").getD "N")

/-- One Normalized Rule, i.e. one data line of the output CSV, with the
boolean flags kept as booleans. -/
structure Rule where
  plan_id : String
  rxcui : String
  drug_name : String
  strength : String
  route : String
  tier : String
  pa : Bool
  st : Bool
  ql : Bool
  ql_max_qty : String
  ql_per_days : String
  alt_rxcui : String
  notes : String
deriving DecidableEq, Repr

/-- The body of the row loop of `ingest_to_rules` (lines 50–77) for one Raw
Row, given the resolver as a function from NDC to optional identifier:
`some rule` when the row is written, `none` when it is skipped (a required
field missing/empty, or `not rxcui`). -/
def emitRow (resolve : String → Option String) (r : Row) : Option Rule :=
  let contract := rowContract r
  let plan := rowPlan r
  let ndc := rowNdc r
  let tier := rowTier r
  if !truthy contract || !truthy plan || ndc = "" || !truthy tier then none
  else
    let rxcui := resolve ndc
    if !truthy rxcui then none
    else some
      { plan_id := pyOrStr contract ++ "-" ++ pyOrStr plan
        rxcui := pyOrStr rxcui
        drug_name := ""
        strength := ""
        route := ""
        tier := pyOrStr tier
        pa := rowPa r
        st := rowSt r
        ql := rowQl r
        ql_max_qty := pyOrStr (rget r "QL_QTY")
        ql_per_days := pyOrStr (rget r "QL_DAYS")
        alt_rxcui := ""
        notes := "CMS-PUF" }

/-- The `for r in rows:` loop of `ingest_to_rules`: threads the counters
`n_in`, `n_out` and accumulates the written rules in order. -/
def ingestLoop (resolve : String → Option String) :
    List Row → Nat → Nat → List Rule → Nat × Nat × List Rule
  | [], nIn, nOut, acc => (nIn, nOut, acc.reverse)
  | r :: rest, nIn, nOut, acc =>
      match emitRow resolve r with
      | none => ingestLoop resolve rest (nIn + 1) nOut acc
      | some rule => ingestLoop resolve rest (nIn + 1) (nOut + 1) (rule :: acc)

/-- The error raised by `_open_formulary_rows` when a ZIP holds no
`*formulary*.csv` entry (`RuntimeError("No *formulary*.csv found inside ZIP")`). -/
inductive IngestError where
  | NoTableFound : IngestError
deriving DecidableEq, Repr

/-- `"formulary" in n.lower() and n.lower().endswith(".csv")` (line 21). -/
def isFormularyName (n : String) : Bool :=
  strContainsSub (pyLower n) "formulary" && strEndsWith (pyLower n) ".csv"

/-- The input path: a ZIP archive (a list of named entries, each carrying
the Raw Rows its CSV content decodes to) or a flat CSV file (its rows). -/
inductive InputSource where
  | zip (entries : List (String × List Row)) : InputSource
  | flat (rows : List Row) : InputSource

/-- `_open_formulary_rows` (lines 18–33), with decoding abstracted: for a
ZIP, the first entry whose name matches `isFormularyName` is selected
(`cand[0]`), and the absence of any match is the `NoTableFound` error; a
flat file yields its rows directly. -/
def _open_formulary_rows : InputSource → Except IngestError (List Row)
  | InputSource.zip entries =>
      match entries.filter (fun e => isFormularyName e.1) with
      | [] => Except.error IngestError.NoTableFound
      | e :: _ => Except.ok e.2
  | InputSource.flat rows => Except.ok rows

/-- The fixed header row written at line 45. -/
def headerRow : List String :=
  ["plan_id", "rxcui", "drug_name", "strength", "route", "tier",
   "pa", "st", "ql", "ql_max_qty", "ql_per_days", "alt_rxcui", "notes"]

/-- How Python's `csv.writer` renders a `bool` cell (`str(True)`/`str(False)`). -/
def boolStr : Bool → String
  | true => "True"
  | false => "False"

/-- The 13-column CSV line written for one rule at line 76. -/
def ruleToLine (rule : Rule) : List String :=
  [rule.plan_id, rule.rxcui, rule.drug_name, rule.strength, rule.route,
   rule.tier, boolStr rule.pa, boolStr rule.st, boolStr rule.ql,
   rule.ql_max_qty, rule.ql_per_days, rule.alt_rxcui, rule.notes]

/-- `ingest_to_rules(input_path, out_path)` (lines 39–78). The first
component is the content of the output file as a list of CSV lines; the
second is the returned `(n_in, n_out)` pair or the propagated error.

Ordering is faithful to the source: `rows = _open_formulary_rows(...)` only
builds a generator, so the output file is opened (truncated) and the header
row written before the row stream is first pulled at `for r in rows:`.
A `NoTableFound` raised by the generator therefore propagates only after
the header row is already in the output file, which the surrounding `with`
block closes (flushing the header) on the way out. -/
def ingest_to_rules (resolve : String → Option String) (input : InputSource) :
    List (List String) × Except IngestError (Nat × Nat) :=
  match _open_formulary_rows input with
  | Except.error e => ([headerRow], Except.error e)
  | Except.ok rows =>
      let out := ingestLoop resolve rows 0 0 []
      (headerRow :: out.2.2.map ruleToLine, Except.ok (out.1, out.2.1))

/-! ### Helper lemmas -/

/-- A key just written by `cacheSet` is present with exactly the written value. -/
theorem cacheGet_cacheSet_self (c : Cache) (k : String) (v : Option String) :
    cacheGet (cacheSet c k v) k = some v := by
  unfold cacheGet cacheSet
  rw [List.find?_append]
  have h1 : (c.filter (fun p => p.1 ≠ k)).find? (fun p => decide (p.1 = k)) = none := by
    rw [List.find?_eq_none]
    intro x hx
    have := List.of_mem_filter hx
    simpa using this
  simp [h1, List.find?]

/-- Every path through the retry loop calls `_save()` exactly once: either on
the successful attempt or when caching the terminal "not found". -/
theorem attemptLoop_saves (sf : Bool) (key : String) (c : Cache) (st : PStore)
    (o : List AttemptResult) (n : Nat) : (attemptLoop sf key c st o n).saves = 1 := by
  induction n generalizing st o with
  | zero => simp [attemptLoop]
  | succ n ih =>
      cases o with
      | nil => simpa [attemptLoop] using ih st []
      | cons a rest =>
          cases a with
          | fail => simpa [attemptLoop] using ih st rest
          | ok f => simp [attemptLoop]

/-- After the retry loop runs, the looked-up key is present in the in-memory
cache (mapped to the resolved identifier or to the "not found" marker). -/
theorem attemptLoop_key_cached (sf : Bool) (key : String) (c : Cache) (st : PStore)
    (o : List AttemptResult) (n : Nat) :
    ∃ v, cacheGet (attemptLoop sf key c st o n).cache key = some v := by
  induction n generalizing st o with
  | zero => exact ⟨none, by simpa [attemptLoop] using cacheGet_cacheSet_self c key none⟩
  | succ n ih =>
      cases o with
      | nil => simpa [attemptLoop] using ih st []
      | cons a rest =>
          cases a with
          | fail => simpa [attemptLoop] using ih st rest
          | ok f =>
              exact ⟨extractVal f,
                by simpa [attemptLoop] using cacheGet_cacheSet_self c key (extractVal f)⟩

/-- The returned value, the in-memory cache, the request count and the save
count of the retry loop do not depend on whether the persistence write
succeeds, nor on the prior state of the store. -/
theorem attemptLoop_indep (sf sf' : Bool) (key : String) (c : Cache) (st st' : PStore)
    (o : List AttemptResult) (n : Nat) :
    (attemptLoop sf key c st o n).result = (attemptLoop sf' key c st' o n).result ∧
    (attemptLoop sf key c st o n).cache = (attemptLoop sf' key c st' o n).cache ∧
    (attemptLoop sf key c st o n).remoteCalls = (attemptLoop sf' key c st' o n).remoteCalls ∧
    (attemptLoop sf key c st o n).saves = (attemptLoop sf' key c st' o n).saves := by
  induction n generalizing o with
  | zero => simp [attemptLoop]
  | succ n ih =>
      cases o with
      | nil => simpa [attemptLoop] using ih []
      | cons a rest =>
          cases a with
          | fail => simpa [attemptLoop] using ih rest
          | ok f => simp [attemptLoop]

/-- When the persistence write raises, the on-disk store is untouched by the
retry loop. -/
theorem attemptLoop_saveFails_store (key : String) (c : Cache) (st : PStore)
    (o : List AttemptResult) (n : Nat) :
    (attemptLoop true key c st o n).store = st := by
  induction n generalizing o with
  | zero => simp [attemptLoop, saveStore]
  | succ n ih =>
      cases o with
      | nil => simpa [attemptLoop] using ih []
      | cons a rest =>
          cases a with
          | fail => simpa [attemptLoop] using ih rest
          | ok f => simp [attemptLoop, saveStore]

/-- Closed form of the ingestion loop: it reads every row, writes exactly the
rows on which `emitRow` fires, in order, and counts both. -/
theorem ingestLoop_eq (resolve : String → Option String) (rows : List Row) :
    ∀ (a b : Nat) (acc : List Rule),
    ingestLoop resolve rows a b acc =
      (a + rows.length, b + (rows.filterMap (emitRow resolve)).length,
       acc.reverse ++ rows.filterMap (emitRow resolve)) := by
  induction rows with
  | nil => intro a b acc; simp [ingestLoop]
  | cons r rest ih =>
      intro a b acc
      cases h : emitRow resolve r with
      | none =>
          simp only [ingestLoop, h, ih, List.filterMap_cons, List.length_cons,
            Prod.mk.injEq]
          exact ⟨by omega, by simp⟩
      | some rule =>
          simp only [ingestLoop, h, ih, List.filterMap_cons, List.length_cons,
            List.reverse_cons, Prod.mk.injEq]
          exact ⟨by omega, by omega, by simp⟩

/-! ### Claim theorems -/

/-- C1: in every ingestion run, a Normalized Rule is emitted for a Raw Row
exactly when the fallback-extracted contract, plan, national-drug-code and
tier are all non-empty and the code resolves to a (non-empty) identifier;
every row increments `rows_read`, only emitted rows increment
`rows_written`, and skipped rows produce no output row. -/
theorem ingest_rule_emitted_iff (resolve : String → Option String) (rows : List Row) :
    (ingestLoop resolve rows 0 0 []).1 = rows.length ∧
    (ingestLoop resolve rows 0 0 []).2.2 = rows.filterMap (emitRow resolve) ∧
    (ingestLoop resolve rows 0 0 []).2.1 = (rows.filterMap (emitRow resolve)).length ∧
    ∀ r : Row, (emitRow resolve r).isSome =
      (truthy (rowContract r) && truthy (rowPlan r) && !(rowNdc r == "") &&
       truthy (rowTier r) && truthy (resolve (rowNdc r))) := by
  refine ⟨by simp [ingestLoop_eq], by simp [ingestLoop_eq], by simp [ingestLoop_eq], ?_⟩
  intro r
  by_cases h1 : truthy (rowContract r) <;> by_cases h2 : truthy (rowPlan r) <;>
    by_cases h3 : rowNdc r = "" <;> by_cases h4 : truthy (rowTier r) <;>
    by_cases h5 : truthy (resolve (rowNdc r)) <;>
    simp [emitRow, h1, h2, h3, h4, h5]

/-- C2: `_norm_bool` is true exactly when the whitespace-trimmed, upper-cased
value is one of Y, YES, TRUE, T, 1; a Raw Row with an absent flag column
yields false for that flag (the lookup defaults to "N"). -/
theorem norm_bool_truthy_tokens (v : String) (r : Row) :
    (_norm_bool v = true ↔
      (pyUpper (pyStrip v) = "Y" ∨ pyUpper (pyStrip v) = "YES" ∨
       pyUpper (pyStrip v) = "TRUE" ∨ pyUpper (pyStrip v) = "T" ∨
       pyUpper (pyStrip v) = "1")) ∧
    (rget r "PRIOR_AUTHORIZATION_FLAG" = none → rowPa r = false) ∧
    (rget r "STEP_THERAPY_FLAG" = none → rowSt r = false) ∧
    (rget r "QUANTITY_LIMIT_FLAG" = none → rowQl r = false) := by
  refine ⟨?_, ?_, ?_, ?_⟩
  · constructor
    · intro h
      simp [_norm_bool] at h
      tauto
    · intro h
      simp [_norm_bool]
      tauto
  · intro h
    simp [rowPa, h, _norm_bool]
    decide
  · intro h
    simp [rowSt, h, _norm_bool]
    decide
  · intro h
    simp [rowQl, h, _norm_bool]
    decide

/-- C2 witness: `" yes "` normalizes to true via the token characterisation,
and the empty row (all flag columns absent) yields false for all three
flags. -/
theorem norm_bool_truthy_tokens_witness :
    (_norm_bool " yes " = true ↔
      (pyUpper (pyStrip " yes ") = "Y" ∨ pyUpper (pyStrip " yes ") = "YES" ∨
       pyUpper (pyStrip " yes ") = "TRUE" ∨ pyUpper (pyStrip " yes ") = "T" ∨
       pyUpper (pyStrip " yes ") = "1")) ∧
    rget ([] : Row) "PRIOR_AUTHORIZATION_FLAG" = none ∧
    rowPa ([] : Row) = false ∧ rowSt ([] : Row) = false ∧ rowQl ([] : Row) = false :=
  ⟨(norm_bool_truthy_tokens " yes " ([] : Row)).1, rfl,
   (norm_bool_truthy_tokens " yes " ([] : Row)).2.1 rfl,
   (norm_bool_truthy_tokens " yes " ([] : Row)).2.2.1 rfl,
   (norm_bool_truthy_tokens " yes " ([] : Row)).2.2.2 rfl⟩

/-- C3: a code whose normalized key is already cached (as an identifier or as
the "not found" marker) is answered with zero remote calls and an unchanged
cache, and a second resolution of any code — run on the cache produced by
the first — always performs zero remote calls: it is served entirely from
cache. -/
theorem resolver_cached_no_lookup (sf sf2 : Bool) (cache : Cache) (store store2 : PStore)
    (o1 o2 : List AttemptResult) (ndc : String) :
    ((cacheGet cache (pyStrip (stripDashes ndc))).isSome →
      (ndc_to_rxcui sf cache store o1 ndc).remoteCalls = 0 ∧
      (ndc_to_rxcui sf cache store o1 ndc).cache = cache) ∧
    (ndc_to_rxcui sf2 (ndc_to_rxcui sf cache store o1 ndc).cache store2 o2 ndc).remoteCalls = 0 := by
  by_cases hk : pyStrip (stripDashes ndc) = ""
  · constructor
    · intro _
      simp [ndc_to_rxcui, hk]
    · simp [ndc_to_rxcui, hk]
  · cases h : cacheGet cache (pyStrip (stripDashes ndc)) with
    | some v =>
        constructor
        · intro _
          simp [ndc_to_rxcui, hk, h]
        · simp [ndc_to_rxcui, hk, h]
    | none =>
        constructor
        · intro hs
          simp [h] at hs
        · have h1 : ndc_to_rxcui sf cache store o1 ndc =
              attemptLoop sf (pyStrip (stripDashes ndc)) cache store o1 3 := by
            simp [ndc_to_rxcui, hk, h]
          obtain ⟨v, hv⟩ := attemptLoop_key_cached sf (pyStrip (stripDashes ndc)) cache store o1 3
          rw [h1]
          simp [ndc_to_rxcui, hk, hv]

/-- C3 witness: a cached code is answered with zero remote calls and an
unchanged cache, and resolving a fresh code twice makes zero remote calls
on the second resolution. -/
theorem resolver_cached_no_lookup_witness :
    ((ndc_to_rxcui false [("123", some "42")] PStore.missing [] "1-2-3").remoteCalls = 0 ∧
     (ndc_to_rxcui false [("123", some "42")] PStore.missing [] "1-2-3").cache = [("123", some "42")]) ∧
    (ndc_to_rxcui false
      (ndc_to_rxcui false ([] : Cache) PStore.missing [] "1-2-3").cache
      PStore.missing [] "1-2-3").remoteCalls = 0 :=
  ⟨(resolver_cached_no_lookup false false [("123", some "42")] PStore.missing PStore.missing
      [] [] "1-2-3").1 (by decide),
   (resolver_cached_no_lookup false false ([] : Cache) PStore.missing PStore.missing
      [] [] "1-2-3").2⟩

/-- C4: a fresh code whose three attempts all fail is cached as "not found"
and persisted; reloading the persisted store and resolving the same code
again yields "not found" with zero remote calls — the negative entry is
never re-resolved. -/
theorem resolver_negative_cache_roundtrip (cache : Cache) (store : PStore)
    (o2 : List AttemptResult) (ndc : String)
    (h1 : pyStrip (stripDashes ndc) ≠ "")
    (h2 : cacheGet cache (pyStrip (stripDashes ndc)) = none) :
    (ndc_to_rxcui false cache store [AttemptResult.fail, AttemptResult.fail, AttemptResult.fail] ndc).result = none ∧
    cacheGet (loadCache (ndc_to_rxcui false cache store [AttemptResult.fail, AttemptResult.fail, AttemptResult.fail] ndc).store) (pyStrip (stripDashes ndc)) = some none ∧
    (ndc_to_rxcui false
        (loadCache (ndc_to_rxcui false cache store [AttemptResult.fail, AttemptResult.fail, AttemptResult.fail] ndc).store)
        (ndc_to_rxcui false cache store [AttemptResult.fail, AttemptResult.fail, AttemptResult.fail] ndc).store
        o2 ndc).result = none ∧
    (ndc_to_rxcui false
        (loadCache (ndc_to_rxcui false cache store [AttemptResult.fail, AttemptResult.fail, AttemptResult.fail] ndc).store)
        (ndc_to_rxcui false cache store [AttemptResult.fail, AttemptResult.fail, AttemptResult.fail] ndc).store
        o2 ndc).remoteCalls = 0 := by
  have hrun : ndc_to_rxcui false cache store [AttemptResult.fail, AttemptResult.fail, AttemptResult.fail] ndc =
      { result := none, cache := cacheSet cache (pyStrip (stripDashes ndc)) none,
        store := PStore.good (cacheSet cache (pyStrip (stripDashes ndc)) none),
        remoteCalls := 3, saves := 1 } := by
    simp [ndc_to_rxcui, h1, h2, attemptLoop, saveStore]
  have hget := cacheGet_cacheSet_self cache (pyStrip (stripDashes ndc)) none
  refine ⟨by rw [hrun], ?_, ?_, ?_⟩
  · rw [hrun]
    simpa [loadCache] using hget
  · rw [hrun]
    simp [loadCache, ndc_to_rxcui, h1, hget, pyOrNone]
  · rw [hrun]
    simp [loadCache, ndc_to_rxcui, h1, hget]

/-- C4 witness: the round trip at the concrete code `00093-7259-05` with an
empty starting cache: all three attempts fail, the reloaded store answers
"not found" with zero remote calls even though the oracle could now
succeed. -/
theorem resolver_negative_cache_roundtrip_witness :
    pyStrip (stripDashes "00093-7259-05") ≠ "" ∧
    cacheGet [] (pyStrip (stripDashes "00093-7259-05")) = none ∧
    ((ndc_to_rxcui false [] PStore.missing
        [AttemptResult.fail, AttemptResult.fail, AttemptResult.fail] "00093-7259-05").result = none ∧
     cacheGet (loadCache (ndc_to_rxcui false [] PStore.missing
        [AttemptResult.fail, AttemptResult.fail, AttemptResult.fail] "00093-7259-05").store)
        (pyStrip (stripDashes "00093-7259-05")) = some none ∧
     (ndc_to_rxcui false
        (loadCache (ndc_to_rxcui false [] PStore.missing
          [AttemptResult.fail, AttemptResult.fail, AttemptResult.fail] "00093-7259-05").store)
        (ndc_to_rxcui false [] PStore.missing
          [AttemptResult.fail, AttemptResult.fail, AttemptResult.fail] "00093-7259-05").store
        [AttemptResult.ok (RxField.arr ["42"])] "00093-7259-05").result = none ∧
     (ndc_to_rxcui false
        (loadCache (ndc_to_rxcui false [] PStore.missing
          [AttemptResult.fail, AttemptResult.fail, AttemptResult.fail] "00093-7259-05").store)
        (ndc_to_rxcui false [] PStore.missing
          [AttemptResult.fail, AttemptResult.fail, AttemptResult.fail] "00093-7259-05").store
        [AttemptResult.ok (RxField.arr ["42"])] "00093-7259-05").remoteCalls = 0) :=
  ⟨by decide, by decide,
   resolver_negative_cache_roundtrip [] PStore.missing
     [AttemptResult.ok (RxField.arr ["42"])] "00093-7259-05" (by decide) (by decide)⟩

/-- C5 counterexample: resolving a non-empty code that hits the cache
performs zero persistence writes, refuting the claim that every resolution
(including a cache hit) triggers a write of the cache to durable storage. -/
theorem resolver_cache_hit_no_save :
    (ndc_to_rxcui false [("00093725905", some "198440")]
      (PStore.good [("00093725905", some "198440")]) [] "00093-7259-05").result = some "198440" ∧
    (ndc_to_rxcui false [("00093725905", some "198440")]
      (PStore.good [("00093725905", some "198440")]) [] "00093-7259-05").saves = 0 := by
  decide

/-- C5 (amended): a cache hit performs no persistence write and leaves the
store untouched; a resolution of a non-empty code that misses the cache
performs exactly one persistence write; and a failing write is swallowed —
the returned value and the in-memory cache are unchanged and the store is
simply left as it was. -/
theorem resolver_save_discipline (sf : Bool) (cache : Cache) (store : PStore)
    (o : List AttemptResult) (ndc : String) :
    ((cacheGet cache (pyStrip (stripDashes ndc))).isSome →
      (ndc_to_rxcui sf cache store o ndc).saves = 0 ∧
      (ndc_to_rxcui sf cache store o ndc).store = store) ∧
    (pyStrip (stripDashes ndc) ≠ "" → cacheGet cache (pyStrip (stripDashes ndc)) = none →
      (ndc_to_rxcui sf cache store o ndc).saves = 1) ∧
    (ndc_to_rxcui true cache store o ndc).result = (ndc_to_rxcui false cache store o ndc).result ∧
    (ndc_to_rxcui true cache store o ndc).cache = (ndc_to_rxcui false cache store o ndc).cache ∧
    (ndc_to_rxcui true cache store o ndc).store = store := by
  refine ⟨?_, ?_, ?_, ?_, ?_⟩
  · intro hs
    by_cases hk : pyStrip (stripDashes ndc) = ""
    · simp [ndc_to_rxcui, hk]
    · cases h : cacheGet cache (pyStrip (stripDashes ndc)) with
      | some v => simp [ndc_to_rxcui, hk, h]
      | none => simp [h] at hs
  · intro hk h
    simpa [ndc_to_rxcui, hk, h] using
      attemptLoop_saves sf (pyStrip (stripDashes ndc)) cache store o 3
  · by_cases hk : pyStrip (stripDashes ndc) = ""
    · simp [ndc_to_rxcui, hk]
    · cases h : cacheGet cache (pyStrip (stripDashes ndc)) with
      | some v => simp [ndc_to_rxcui, hk, h]
      | none =>
          simpa [ndc_to_rxcui, hk, h] using
            (attemptLoop_indep true false (pyStrip (stripDashes ndc)) cache store store o 3).1
  · by_cases hk : pyStrip (stripDashes ndc) = ""
    · simp [ndc_to_rxcui, hk]
    · cases h : cacheGet cache (pyStrip (stripDashes ndc)) with
      | some v => simp [ndc_to_rxcui, hk, h]
      | none =>
          simpa [ndc_to_rxcui, hk, h] using
            (attemptLoop_indep true false (pyStrip (stripDashes ndc)) cache store store o 3).2.1
  · by_cases hk : pyStrip (stripDashes ndc) = ""
    · simp [ndc_to_rxcui, hk]
    · cases h : cacheGet cache (pyStrip (stripDashes ndc)) with
      | some v => simp [ndc_to_rxcui, hk, h]
      | none =>
          simpa [ndc_to_rxcui, hk, h] using
            attemptLoop_saveFails_store (pyStrip (stripDashes ndc)) cache store o 3

/-- C5 witness: a cache hit at `"123"` performs zero saves and leaves the
store untouched, and a cache miss at `"456"` performs exactly one save. -/
theorem resolver_save_discipline_witness :
    ((ndc_to_rxcui false [("123", some "42")] PStore.missing [] "123").saves = 0 ∧
     (ndc_to_rxcui false [("123", some "42")] PStore.missing [] "123").store = PStore.missing) ∧
    (ndc_to_rxcui false ([] : Cache) PStore.corrupt [] "456").saves = 1 :=
  ⟨(resolver_save_discipline false [("123", some "42")] PStore.missing [] "123").1 (by decide),
   (resolver_save_discipline false ([] : Cache) PStore.corrupt [] "456").2.1 (by decide) (by decide)⟩

/-- C6 counterexample: a remote response whose `idGroup.rxnormId` field is
the bare string `"198440"` resolves to "not found", refuting the claim
that a string-valued identifier field is returned as the identifier. -/
theorem resolver_string_field_not_found :
    (ndc_to_rxcui false [] PStore.missing
      [AttemptResult.ok (RxField.str "198440")] "00093-7259-05").result = none := by
  decide

/-- C6 (amended): for a fresh code answered on the first attempt, the
resolver returns exactly `extractVal` of the `idGroup.rxnormId` field, and
`extractVal` yields an identifier precisely when the field is a non-empty
array — whose first element is taken; a bare string, an empty array, or an
absent field are all treated as "not found". -/
theorem resolver_takes_head_of_array (sf : Bool) (cache : Cache) (store : PStore)
    (f : RxField) (ndc : String)
    (h1 : pyStrip (stripDashes ndc) ≠ "")
    (h2 : cacheGet cache (pyStrip (stripDashes ndc)) = none) :
    (ndc_to_rxcui sf cache store [AttemptResult.ok f] ndc).result = extractVal f ∧
    ∀ s : String, extractVal f = some s ↔ ∃ l : List String, f = RxField.arr (s :: l) := by
  constructor
  · simp [ndc_to_rxcui, h1, h2, attemptLoop]
  · intro s
    constructor
    · intro h
      cases f with
      | absent => simp [extractVal] at h
      | str t => simp [extractVal] at h
      | arr l =>
          cases l with
          | nil => simp [extractVal] at h
          | cons x xs =>
              simp [extractVal] at h
              exact ⟨xs, by rw [h]⟩
    · rintro ⟨l, rfl⟩
      simp [extractVal]

/-- C6 witness: a two-element array field resolves to its first element. -/
theorem resolver_takes_head_of_array_witness :
    (ndc_to_rxcui false [] PStore.missing
      [AttemptResult.ok (RxField.arr ["198440", "308056"])] "00093-7259-05").result =
      extractVal (RxField.arr ["198440", "308056"]) ∧
    ∀ s : String, extractVal (RxField.arr ["198440", "308056"]) = some s ↔
      ∃ l : List String, RxField.arr ["198440", "308056"] = RxField.arr (s :: l) :=
  resolver_takes_head_of_array false [] PStore.missing (RxField.arr ["198440", "308056"])
    "00093-7259-05" (by decide) (by decide)

/-- C7 counterexample: on an archive with no matching entry the ingestion
call does fail with `NoTableFound`, but the output file is not empty — it
already contains the header row, because the header is written before the
lazy row stream is first pulled. -/
theorem ingest_no_table_header_still_written :
    (ingest_to_rules (fun _ => none) (InputSource.zip [("readme.txt", [[("NDC", "1")]])])).2 =
      Except.error IngestError.NoTableFound ∧
    (ingest_to_rules (fun _ => none) (InputSource.zip [("readme.txt", [[("NDC", "1")]])])).1 =
      [headerRow] ∧
    (ingest_to_rules (fun _ => none) (InputSource.zip [("readme.txt", [[("NDC", "1")]])])).1 ≠
      ([] : List (List String)) :=
  ⟨rfl, rfl, by decide⟩

/-- C7 (amended): for every archive with no entry whose lower-cased name
contains "formulary" and ends with ".csv", ingestion fails with
`NoTableFound` and the output file contains exactly the header row and no
data row. -/
theorem ingest_no_table_emits_header_only (resolve : String → Option String)
    (entries : List (String × List Row))
    (h : entries.filter (fun e => isFormularyName e.1) = []) :
    ingest_to_rules resolve (InputSource.zip entries) =
      ([headerRow], Except.error IngestError.NoTableFound) := by
  simp [ingest_to_rules, _open_formulary_rows, h]

/-- C7 witness: an archive holding only `readme.txt` fails with
`NoTableFound` and leaves exactly the header row in the output. -/
theorem ingest_no_table_emits_header_only_witness :
    List.filter (fun e => isFormularyName e.1) [("readme.txt", ([] : List Row))] = [] ∧
    ingest_to_rules (fun _ => none) (InputSource.zip [("readme.txt", ([] : List Row))]) =
      ([headerRow], Except.error IngestError.NoTableFound) :=
  ⟨by decide, ingest_no_table_emits_header_only (fun _ => none)
    [("readme.txt", ([] : List Row))] (by decide)⟩

/-- C8: for a fresh code whose first two attempts fail and whose third
succeeds with a non-empty identifier array, the resolver makes exactly
three remote calls, returns the first identifier, performs exactly one
cache write, and stores that identifier under the normalized key. -/
theorem resolver_two_failures_then_success (sf : Bool) (cache : Cache) (store : PStore)
    (s : String) (rest : List String) (ndc : String)
    (h1 : pyStrip (stripDashes ndc) ≠ "")
    (h2 : cacheGet cache (pyStrip (stripDashes ndc)) = none) :
    (ndc_to_rxcui sf cache store
      [AttemptResult.fail, AttemptResult.fail, AttemptResult.ok (RxField.arr (s :: rest))] ndc).result = some s ∧
    (ndc_to_rxcui sf cache store
      [AttemptResult.fail, AttemptResult.fail, AttemptResult.ok (RxField.arr (s :: rest))] ndc).remoteCalls = 3 ∧
    (ndc_to_rxcui sf cache store
      [AttemptResult.fail, AttemptResult.fail, AttemptResult.ok (RxField.arr (s :: rest))] ndc).saves = 1 ∧
    cacheGet (ndc_to_rxcui sf cache store
      [AttemptResult.fail, AttemptResult.fail, AttemptResult.ok (RxField.arr (s :: rest))] ndc).cache
      (pyStrip (stripDashes ndc)) = some (some s) := by
  have hrun : ndc_to_rxcui sf cache store
      [AttemptResult.fail, AttemptResult.fail, AttemptResult.ok (RxField.arr (s :: rest))] ndc =
      { result := some s, cache := cacheSet cache (pyStrip (stripDashes ndc)) (some s),
        store := saveStore sf (cacheSet cache (pyStrip (stripDashes ndc)) (some s)) store,
        remoteCalls := 3, saves := 1 } := by
    simp [ndc_to_rxcui, h1, h2, attemptLoop, extractVal]
  rw [hrun]
  exact ⟨rfl, rfl, rfl, cacheGet_cacheSet_self cache (pyStrip (stripDashes ndc)) (some s)⟩

/-- C8 witness: the fail-fail-succeed run at the concrete code
`00093-7259-05` with identifier `198440`. -/
theorem resolver_two_failures_then_success_witness :
    (ndc_to_rxcui false [] PStore.missing
      [AttemptResult.fail, AttemptResult.fail, AttemptResult.ok (RxField.arr ["198440"])]
      "00093-7259-05").result = some "198440" ∧
    (ndc_to_rxcui false [] PStore.missing
      [AttemptResult.fail, AttemptResult.fail, AttemptResult.ok (RxField.arr ["198440"])]
      "00093-7259-05").remoteCalls = 3 ∧
    (ndc_to_rxcui false [] PStore.missing
      [AttemptResult.fail, AttemptResult.fail, AttemptResult.ok (RxField.arr ["198440"])]
      "00093-7259-05").saves = 1 ∧
    cacheGet (ndc_to_rxcui false [] PStore.missing
      [AttemptResult.fail, AttemptResult.fail, AttemptResult.ok (RxField.arr ["198440"])]
      "00093-7259-05").cache (pyStrip (stripDashes "00093-7259-05")) = some (some "198440") :=
  resolver_two_failures_then_success false [] PStore.missing "198440" [] "00093-7259-05"
    (by decide) (by decide)

/-- C9: an input that is empty after stripping dashes and surrounding
whitespace resolves to "not found" with no remote lookup, no cache change,
no store change, and no persistence write. -/
theorem resolver_empty_input (sf : Bool) (cache : Cache) (store : PStore)
    (o : List AttemptResult) (ndc : String) (h : pyStrip (stripDashes ndc) = "") :
    ndc_to_rxcui sf cache store o ndc =
      { result := none, cache := cache, store := store, remoteCalls := 0, saves := 0 } := by
  simp [ndc_to_rxcui, h]

/-- C9 witness: `" -- "` normalizes to the empty key and resolves to "not
found" leaving cache and store untouched. -/
theorem resolver_empty_input_witness :
    pyStrip (stripDashes " -- ") = "" ∧
    ndc_to_rxcui false [("1", some "2")] (PStore.good [("1", some "2")]) [] " -- " =
      { result := none, cache := [("1", some "2")], store := PStore.good [("1", some "2")],
        remoteCalls := 0, saves := 0 } :=
  ⟨by decide, resolver_empty_input false [("1", some "2")] (PStore.good [("1", some "2")])
    [] " -- " (by decide)⟩

/-- C10: whenever an ingestion call returns a pair of counts, the number of
rules written is at most the number of rows read. -/
theorem ingest_written_le_read (resolve : String → Option String) (input : InputSource)
    (nIn nOut : Nat) (h : (ingest_to_rules resolve input).2 = Except.ok (nIn, nOut)) :
    nOut ≤ nIn := by
  cases input with
  | flat rows =>
      simp [ingest_to_rules, _open_formulary_rows, ingestLoop_eq] at h
      obtain ⟨h1, h2⟩ := h
      subst h1; subst h2
      exact List.length_filterMap_le _ _
  | zip entries =>
      cases he : entries.filter (fun e => isFormularyName e.1) with
      | nil => simp [ingest_to_rules, _open_formulary_rows, he] at h
      | cons e es =>
          simp [ingest_to_rules, _open_formulary_rows, he, ingestLoop_eq] at h
          obtain ⟨h1, h2⟩ := h
          subst h1; subst h2
          exact List.length_filterMap_le _ _

/-- C10 witness: a one-row flat input whose row is written yields counts
`(1, 1)`, and the theorem gives `1 ≤ 1`. -/
theorem ingest_written_le_read_witness :
    (ingest_to_rules (fun _ => some "42")
      (InputSource.flat [[("CONTRACT_ID", "C1"), ("PLAN_ID", "001"),
        ("NDC", "1-1-1"), ("TIER", "2")]])).2 = Except.ok (1, 1) ∧ 1 ≤ 1 :=
  ⟨rfl, ingest_written_le_read (fun _ => some "42")
    (InputSource.flat [[("CONTRACT_ID", "C1"), ("PLAN_ID", "001"),
      ("NDC", "1-1-1"), ("TIER", "2")]]) 1 1 rfl⟩

end Fastform
